import Mathlib

/-!
Verification development for the portfolio backend API (main.py, schemas.py).

The HTTP layer (FastAPI) and the document store (MongoDB via database.py,
whose source is not part of this repository snapshot) are shallowly embedded:
documents are field maps from string keys to a small universe of values,
the store is a record of the three collections plus a ghost operation log,
and each route handler is a pure function from its inputs and the store
handle to a response and an updated handle.
-/

/-- A stored field value: string, list of strings, boolean, timestamp
(abstracted to a natural number), a list of label/value pairs (for the
stats field of Project), or null. -/
inductive Value where
  | vStr : String → Value
  | vList : List String → Value
  | vBool : Bool → Value
  | vNat : Nat → Value
  | vPairs : List (String × String) → Value
  | vNull : Value
deriving DecidableEq, Repr

/-- A raw document: an association list of field names to values,
as returned by the store. -/
abbrev Doc := List (String × Value)

/-- Dictionary lookup, first matching key (python dict.get with default None). -/
def Doc.get (d : Doc) (k : String) : Option Value :=
  match d with
  | [] => none
  | (k', v) :: rest => if k' = k then some v else Doc.get rest k

/-- Dictionary lookup with an explicit default (python d.get(k, default)). -/
def Doc.getD (d : Doc) (k : String) (default : Value) : Value :=
  (Doc.get d k).getD default

/-- Ghost record of one store operation: a count query, an insert, or a
find query.  Used to state claims about which writes and reads a routine
performs. -/
inductive Op where
  | count : String → Op
  | insert : String → Doc → Op
  | find : String → List (String × Value) → Option Nat → Op
deriving DecidableEq, Repr

/-- True exactly on insert operations. -/
def Op.isInsert : Op → Bool
  | Op.insert _ _ => true
  | _ => false

/-- The document store: the three named collections of the application
(project, post, contactmessage), the counter from which new identifiers
are assigned, and a ghost log of the operations performed so far. -/
structure Store where
  project : List Doc
  post : List Doc
  contactmessage : List Doc
  nextId : Nat
  log : List Op
deriving DecidableEq, Repr

/-- The collection named by a string; names other than the three
application collections denote an empty collection. -/
def Store.coll (s : Store) (c : String) : List Doc :=
  if c = "project" then s.project
  else if c = "post" then s.post
  else if c = "contactmessage" then s.contactmessage
  else s.project.take 0

/-- Append a document to the named collection. -/
def Store.insertDoc (s : Store) (c : String) (d : Doc) : Store :=
  if c = "project" then { s with project := s.project ++ [d] }
  else if c = "post" then { s with post := s.post ++ [d] }
  else if c = "contactmessage" then { s with contactmessage := s.contactmessage ++ [d] }
  else s

/-- Modelled from the spec: the string form of the identifier newly
assigned by the store for the n-th inserted record (database.py is not in
the snapshot; the spec says create_document returns the newly assigned
identifier as a string). -/
def assignId (n : Nat) : String := "oid" ++ toString n

/-- Modelled from the spec: valueMatches v q holds when a stored field
value v matches a query value q under document-store equality semantics —
either plain equality, or membership when the stored value is a list and
the query value a string (exact, case-sensitive member). -/
def valueMatches (stored q : Value) : Bool :=
  stored == q ||
    (match stored, q with
     | Value.vList l, Value.vStr t => l.contains t
     | _, _ => false)

/-- Modelled from the spec: a document matches a filter when every
key/value pair of the filter matches the corresponding stored field; a
missing field matches nothing; the empty filter matches every document. -/
def matchesFilter (filt : List (String × Value)) (d : Doc) : Bool :=
  filt.all fun kv =>
    match Doc.get d kv.1 with
    | some v => valueMatches v kv.2
    | none => false

/-- Modelled from the spec: create_document(collection_name, record)
inserts the record field map into the named collection and returns the
newly assigned identifier as a string (database.py is not in the
snapshot). -/
def create_document (c : String) (d : Doc) (s : Store) : String × Store :=
  let s1 := Store.insertDoc s c d
  (assignId s.nextId,
   { s1 with nextId := s.nextId + 1, log := s.log ++ [Op.insert c d] })

/-- Modelled from the spec: get_documents(collection_name, filter, limit)
returns the documents of the named collection matching the filter, in
insertion order, capped to limit records when a limit is given. -/
def get_documents (c : String) (filt : List (String × Value))
    (limit : Option Nat) (s : Store) : List Doc × Store :=
  let docs := (Store.coll s c).filter (matchesFilter filt)
  let docs := match limit with
    | none => docs
    | some n => docs.take n
  (docs, { s with log := s.log ++ [Op.find c filt limit] })

/-- Modelled from the spec: count_documents with the empty filter returns
the number of documents in the named collection. -/
def count_documents (c : String) (s : Store) : Nat × Store :=
  ((Store.coll s c).length, { s with log := s.log ++ [Op.count c] })

/-- Project schema (schemas.py): the validated field set of a project
record. Stats are label/value pairs. -/
structure Project where
  title : String
  slug : String
  description : String
  tags : List String
  stack : List String
  impact : Option String
  cover_url : Option String
  github_url : Option String
  demo_url : Option String
  case_study : Option String
  stats : List (String × String)
  featured : Bool
deriving DecidableEq, Repr

/-- An optional string as a stored value: null when absent. -/
def optStrVal : Option String → Value
  | some s => Value.vStr s
  | none => Value.vNull

/-- An optional timestamp as a stored value: null when absent. -/
def optNatVal : Option Nat → Value
  | some n => Value.vNat n
  | none => Value.vNull

/-- The validated field map of a Project record, as inserted into the
store (every declared field is present; absent optionals are null). -/
def Project.toDoc (p : Project) : Doc :=
  [("title", Value.vStr p.title),
   ("slug", Value.vStr p.slug),
   ("description", Value.vStr p.description),
   ("tags", Value.vList p.tags),
   ("stack", Value.vList p.stack),
   ("impact", optStrVal p.impact),
   ("cover_url", optStrVal p.cover_url),
   ("github_url", optStrVal p.github_url),
   ("demo_url", optStrVal p.demo_url),
   ("case_study", optStrVal p.case_study),
   ("stats", Value.vPairs p.stats),
   ("featured", Value.vBool p.featured)]

/-- Post schema (schemas.py). -/
structure Post where
  title : String
  slug : String
  excerpt : Option String
  content : String
  tags : List String
  published_at : Option Nat
deriving DecidableEq, Repr

/-- The validated field map of a Post record. -/
def Post.toDoc (p : Post) : Doc :=
  [("title", Value.vStr p.title),
   ("slug", Value.vStr p.slug),
   ("excerpt", optStrVal p.excerpt),
   ("content", Value.vStr p.content),
   ("tags", Value.vList p.tags),
   ("published_at", optNatVal p.published_at)]

/-- ContactMessage schema (schemas.py). -/
structure ContactMessage where
  name : String
  email : String
  message : String
deriving DecidableEq, Repr

/-- The validated field map of a ContactMessage record. -/
def ContactMessage.toDoc (m : ContactMessage) : Doc :=
  [("name", Value.vStr m.name),
   ("email", Value.vStr m.email),
   ("message", Value.vStr m.message)]

/-- The three hardcoded example projects of ensure_seed_data (main.py). -/
def seedProjects : List Project :=
  [{ title := "Real-time Vector Search Service",
     slug := "vector-search",
     description := "Low-latency vector DB layer with HNSW + PQ, tuned for p95 < 20ms.",
     tags := ["AI", "Infra"],
     stack := ["Rust", "gRPC", "ANN", "Redis", "Docker"],
     impact := some "p95 latency ↓ 38% at 10k QPS",
     cover_url := some "/covers/vector.jpg",
     github_url := some "https://github.com/example/vector-search",
     demo_url := none,
     case_study := none,
     stats := [],
     featured := true },
   { title := "LLM-Assisted Code Review Bot",
     slug := "code-review-bot",
     description := "Context-aware PR reviewer with inline suggestions and risk flags.",
     tags := ["AI", "Open Source", "Web"],
     stack := ["Python", "FastAPI", "OpenAI", "Postgres"],
     impact := some "review time ↓ 45% across 120+ PRs",
     cover_url := some "/covers/bot.jpg",
     github_url := some "https://github.com/example/code-review-bot",
     demo_url := none,
     case_study := none,
     stats := [],
     featured := false },
   { title := "Telemetry Pipeline for Edge Devices",
     slug := "edge-telemetry",
     description := "Exactly-once ingestion with Kafka + Flink; real-time dashboards.",
     tags := ["Infra", "Data"],
     stack := ["Kafka", "Flink", "Debezium", "ClickHouse"],
     impact := some "throughput ↑ 3.2x, data loss ~0%",
     cover_url := some "/covers/telemetry.jpg",
     github_url := none,
     demo_url := none,
     case_study := none,
     stats := [],
     featured := false }]

/-- The field maps of the three example projects. -/
def projectSeedDocs : List Doc := seedProjects.map Project.toDoc

/-- The single hardcoded example post of ensure_seed_data; published_at is
the current time, passed in as a parameter. -/
def seedPost (now : Nat) : Post :=
  { title := "Notes on low-latency systems",
    slug := "low-latency-notes",
    excerpt := some "What actually moves p95 and p99 in real systems.",
    content := "# Low-latency notes\nA practical list of levers that matter.",
    tags := ["systems", "perf"],
    published_at := some now }

/-- The field map of the example post. -/
def postSeedDoc (now : Nat) : Doc := (seedPost now).toDoc

/-- The body of ensure_seed_data on an initialized store handle (main.py):
count the project collection and, when empty, insert the three example
projects; then count the post collection and, when empty, insert the
example post. -/
def seedOf (now : Nat) (s : Store) : Store :=
  let r1 := count_documents "project" s
  let s1 := if r1.1 = 0
    then projectSeedDocs.foldl (fun st d => (create_document "project" d st).2) r1.2
    else r1.2
  let r2 := count_documents "post" s1
  if r2.1 = 0 then (create_document "post" (postSeedDoc now) r2.2).2 else r2.2

/-- ensure_seed_data (main.py): returns immediately when the store handle
is None, otherwise runs the seed-if-empty body. -/
def ensure_seed_data (now : Nat) : Option Store → Option Store
  | none => none
  | some s => some (seedOf now s)

/-- Project response shape (main.py ProjectResponse). -/
structure ProjectResponse where
  title : String
  slug : String
  description : String
  tags : List String
  stack : List String
  impact : Option String
  cover_url : Option String
  github_url : Option String
  demo_url : Option String
  featured : Bool
deriving DecidableEq, Repr

/-- Post response shape (main.py PostResponse). -/
structure PostResponse where
  title : String
  slug : String
  excerpt : Option String
  content : String
  tags : List String
  published_at : Option Nat
deriving DecidableEq, Repr

/-- Validation of a required string field: the looked-up value must be a
string, anything else (missing, null, other type) is a validation error. -/
def asStr : Option Value → Option String
  | some (Value.vStr s) => some s
  | _ => none

/-- Validation of an optional string field: missing or null becomes none,
a string is kept, any other type is a validation error. -/
def asOptStr : Option Value → Option (Option String)
  | none => some none
  | some Value.vNull => some none
  | some (Value.vStr s) => some (some s)
  | _ => none

/-- Validation of an optional timestamp field. -/
def asOptNat : Option Value → Option (Option Nat)
  | none => some none
  | some Value.vNull => some none
  | some (Value.vNat n) => some (some n)
  | _ => none

/-- Validation of a string-list field. -/
def asStrList : Value → Option (List String)
  | Value.vList l => some l
  | _ => none

/-- Validation of a boolean field. -/
def asBool : Value → Option Bool
  | Value.vBool b => some b
  | _ => none

/-- The normalization performed by the project endpoints (main.py): each
field is read with dict.get, substituting an empty list for missing tags
or stack and false for missing featured, and the result is validated
against the ProjectResponse shape; none models a response-validation
error. -/
def normalizeProject (p : Doc) : Option ProjectResponse := do
  let title ← asStr (Doc.get p "title")
  let slug ← asStr (Doc.get p "slug")
  let description ← asStr (Doc.get p "description")
  let tags ← asStrList (Doc.getD p "tags" (Value.vList []))
  let stack ← asStrList (Doc.getD p "stack" (Value.vList []))
  let impact ← asOptStr (Doc.get p "impact")
  let cover_url ← asOptStr (Doc.get p "cover_url")
  let github_url ← asOptStr (Doc.get p "github_url")
  let demo_url ← asOptStr (Doc.get p "demo_url")
  let featured ← asBool (Doc.getD p "featured" (Value.vBool false))
  pure { title := title, slug := slug, description := description,
         tags := tags, stack := stack, impact := impact,
         cover_url := cover_url, github_url := github_url,
         demo_url := demo_url, featured := featured }

/-- The normalization performed by the post endpoints (main.py). -/
def normalizePost (p : Doc) : Option PostResponse := do
  let title ← asStr (Doc.get p "title")
  let slug ← asStr (Doc.get p "slug")
  let excerpt ← asOptStr (Doc.get p "excerpt")
  let content ← asStr (Doc.get p "content")
  let tags ← asStrList (Doc.getD p "tags" (Value.vList []))
  let published_at ← asOptNat (Doc.get p "published_at")
  pure { title := title, slug := slug, excerpt := excerpt,
         content := content, tags := tags, published_at := published_at }

/-- The tag filter built by the listing endpoints (main.py): the python
expression `if tag` is true only for a present, nonempty string, so a
missing or empty tag parameter yields the empty filter. -/
def tagFilter (tag : Option String) : List (String × Value) :=
  match tag with
  | some t => if t = "" then [] else [("tags", Value.vStr t)]
  | none => []

/-- An HTTP-level outcome: a successful payload or an HTTPException with a
status code and detail message. -/
inductive Resp (α : Type) where
  | ok : α → Resp α
  | httpError : Nat → String → Resp α
deriving DecidableEq, Repr

/-- Modelled from the spec: a read against an uninitialized store handle
(db is None) fails with an infrastructure error, which propagates out of
the handler; Except.error carries that failure. -/
def get_documents_db (c : String) (filt : List (String × Value))
    (limit : Option Nat) : Option Store → Except String (List Doc × Store)
  | none => Except.error "database not initialized"
  | some s => Except.ok (get_documents c filt limit s)

/-- GET /api/projects (main.py list_projects): seed-if-empty check, then a
find with the optional tag filter, then normalization of every document. -/
def list_projects (tag : Option String) (now : Nat) (db : Option Store) :
    Except String (List (Option ProjectResponse) × Store) :=
  match get_documents_db "project" (tagFilter tag) none (ensure_seed_data now db) with
  | Except.error e => Except.error e
  | Except.ok r => Except.ok (r.1.map normalizeProject, r.2)

/-- GET /api/projects/slug (main.py get_project): seed-if-empty check,
exact-slug find with limit 1, 404 when no document matches. -/
def get_project (slug : String) (now : Nat) (db : Option Store) :
    Except String (Resp (Option ProjectResponse) × Store) :=
  match get_documents_db "project" [("slug", Value.vStr slug)] (some 1)
      (ensure_seed_data now db) with
  | Except.error e => Except.error e
  | Except.ok r =>
    match r.1 with
    | [] => Except.ok (Resp.httpError 404 "Project not found", r.2)
    | p :: _ => Except.ok (Resp.ok (normalizeProject p), r.2)

/-- GET /api/posts (main.py list_posts). -/
def list_posts (tag : Option String) (now : Nat) (db : Option Store) :
    Except String (List (Option PostResponse) × Store) :=
  match get_documents_db "post" (tagFilter tag) none (ensure_seed_data now db) with
  | Except.error e => Except.error e
  | Except.ok r => Except.ok (r.1.map normalizePost, r.2)

/-- GET /api/posts/slug (main.py get_post). -/
def get_post (slug : String) (now : Nat) (db : Option Store) :
    Except String (Resp (Option PostResponse) × Store) :=
  match get_documents_db "post" [("slug", Value.vStr slug)] (some 1)
      (ensure_seed_data now db) with
  | Except.error e => Except.error e
  | Except.ok r =>
    match r.1 with
    | [] => Except.ok (Resp.httpError 404 "Post not found", r.2)
    | p :: _ => Except.ok (Resp.ok (normalizePost p), r.2)

/-- Modelled from the spec: syntactic validity of an email address as
checked by the EmailStr validator at the request boundary — exactly one
at-sign separating a nonempty local part from a domain that contains a
dot with nonempty labels, and no spaces. -/
def is_valid_email (s : String) : Bool :=
  let cs := s.toList
  let l := cs.takeWhile (fun c => c ≠ '@')
  let d := (cs.dropWhile (fun c => c ≠ '@')).drop 1
  (cs.count '@' == 1) &&
  !l.isEmpty && !d.isEmpty &&
  (d.count '.' ≥ 1 : Bool) &&
  !(d.head? == some '.') && !(d.getLast? == some '.') &&
  !(cs.contains ' ')

/-- A raw contact request body before validation: each required field may
be missing. -/
structure RawContact where
  name : Option String
  email : Option String
  message : Option String
deriving DecidableEq, Repr

/-- A validated ContactRequest (main.py): all three fields present and the
email syntactically valid. -/
structure ContactRequest where
  name : String
  email : String
  message : String
deriving DecidableEq, Repr

/-- Modelled from the spec: the request-body validation performed at the
API boundary before the contact handler runs — none when a required field
is missing or the email is syntactically invalid (422-class error). -/
def parse_contact (raw : RawContact) : Option ContactRequest :=
  match raw.name, raw.email, raw.message with
  | some n, some e, some m =>
    if is_valid_email e then some { name := n, email := e, message := m } else none
  | _, _, _ => none

/-- Outcome of POST /api/contact: the success body carries the status
string and the new identifier; validationError is the 422-class rejection;
serverError a propagated infrastructure failure. -/
inductive ContactOutcome where
  | ok : String → String → ContactOutcome
  | validationError : Nat → ContactOutcome
  | serverError : String → ContactOutcome
deriving DecidableEq, Repr

/-- The contact handler body (main.py submit_contact): build the
ContactMessage field map from the validated payload, insert it, and
return status ok with the new identifier. -/
def submit_contact (payload : ContactRequest) (db : Option Store) :
    ContactOutcome × Option Store :=
  match db with
  | none => (ContactOutcome.serverError "database not initialized", none)
  | some s =>
    let doc := ContactMessage.toDoc
      { name := payload.name, email := payload.email, message := payload.message }
    let r := create_document "contactmessage" doc s
    (ContactOutcome.ok "ok" r.1, some r.2)

/-- POST /api/contact end to end: boundary validation, then the handler;
a validation failure returns 422 without invoking the handler. -/
def api_contact (raw : RawContact) (db : Option Store) :
    ContactOutcome × Option Store :=
  match parse_contact raw with
  | none => (ContactOutcome.validationError 422, db)
  | some payload => submit_contact payload db

/-- Equality of Except values is decidable when it is for both components. -/
instance exceptDecEq {ε α : Type} [DecidableEq ε] [DecidableEq α] :
    DecidableEq (Except ε α) := fun x y =>
  match x, y with
  | Except.ok a, Except.ok b =>
    if h : a = b then isTrue (by rw [h])
    else isFalse (fun hc => h (Except.ok.inj hc))
  | Except.error a, Except.error b =>
    if h : a = b then isTrue (by rw [h])
    else isFalse (fun hc => h (Except.error.inj hc))
  | Except.ok _, Except.error _ => isFalse (fun hc => Except.noConfusion hc)
  | Except.error _, Except.ok _ => isFalse (fun hc => Except.noConfusion hc)

/-- The store-connection facts the diagnostics endpoint can observe: the
database name attribute when present, and the outcome of
list_collection_names, which either returns the collection names or
raises (Except.error carries the exception message). -/
structure DbHandle where
  name : Option String
  list_collection_names : Except String (List String)
deriving DecidableEq, Repr

/-- The environment of GET /test: the store handle (None when never
initialized) and the DATABASE_URL environment variable. -/
structure TestEnv where
  db : Option DbHandle
  database_url : Option String
deriving DecidableEq, Repr

/-- The payload returned by GET /test (main.py test_database). -/
structure TestResponse where
  backend : String
  database : String
  database_url : Option String
  database_name : Option String
  connection_status : String
  collections : List String
deriving DecidableEq, Repr

/-- Python truthiness of os.getenv: unset or empty is false. -/
def envTruthy : Option String → Bool
  | some s => decide (s ≠ "")
  | none => false

/-- GET /test (main.py test_database): starts from the default payload,
upgrades the database field step by step, and catches the
list_collection_names failure inside the handler, reporting it as a
status string; the handler is total, so no error escapes it. -/
def test_database (env : TestEnv) : TestResponse :=
  let r0 : TestResponse :=
    { backend := "✅ Running",
      database := "❌ Not Available",
      database_url := none,
      database_name := none,
      connection_status := "Not Connected",
      collections := [] }
  match env.db with
  | some d =>
    let r1 :=
      { r0 with
        database := "✅ Available",
        database_url := some (if envTruthy env.database_url then "✅ Set" else "❌ Not Set"),
        database_name := some (match d.name with
          | some n => n
          | none => "✅ Connected"),
        connection_status := "Connected" }
    match d.list_collection_names with
    | Except.ok cols =>
      { r1 with collections := cols.take 10, database := "✅ Connected & Working" }
    | Except.error e =>
      { r1 with database := "⚠️ Connected but Error: " ++ e.take 80 }
  | none => { r0 with database := "⚠️ Available but not initialized" }

/-- Well-formedness of the tags field of a stored document: absent or a
list of strings (every document written by this application satisfies
it). -/
def tagsWellFormed (d : Doc) : Bool :=
  match Doc.get d "tags" with
  | none => true
  | some (Value.vList _) => true
  | some _ => false

/-- The tag list of a stored document contains t as an exact,
case-sensitive member; a document without a tag list contains nothing. -/
def docTagsContain (d : Doc) (t : String) : Bool :=
  match Doc.get d "tags" with
  | some (Value.vList l) => l.contains t
  | _ => false

/-- A store with all three collections empty. -/
def emptyStore : Store :=
  { project := [], post := [], contactmessage := [], nextId := 0, log := [] }

/-- A concrete stored project document whose tag list is ["AI"]. -/
def cdoc : Doc :=
  [("title", Value.vStr "T"),
   ("slug", Value.vStr "t"),
   ("description", Value.vStr "D"),
   ("tags", Value.vList ["AI"])]

/-- A concrete stored post document. -/
def pdoc : Doc :=
  [("title", Value.vStr "P"),
   ("slug", Value.vStr "p"),
   ("content", Value.vStr "C")]

/-- A store already holding one project and one post, so that the seed
routine performs no writes on it. -/
def cstore : Store :=
  { project := [cdoc], post := [pdoc], contactmessage := [], nextId := 7, log := [] }

/-- A stored project document carrying only the three required fields:
featured, tags and stack are all missing. -/
def minimalProjectDoc : Doc :=
  [("title", Value.vStr "t"),
   ("slug", Value.vStr "s"),
   ("description", Value.vStr "d")]

/-- The response the normalization produces for minimalProjectDoc. -/
def minimalProjectResponse : ProjectResponse :=
  { title := "t", slug := "s", description := "d",
    tags := [], stack := [], impact := none, cover_url := none,
    github_url := none, demo_url := none, featured := false }

/-- A contact request body whose email is not syntactically valid. -/
def rawBad : RawContact :=
  { name := some "Jane", email := some "not-an-email", message := some "hi" }

/-- A valid contact request body. -/
def rawJane : RawContact :=
  { name := some "Jane", email := some "jane@example.com", message := some "hi" }

/-- The validated payload of rawJane. -/
def janeReq : ContactRequest :=
  { name := "Jane", email := "jane@example.com", message := "hi" }

@[simp] theorem coll_project (s : Store) : Store.coll s "project" = s.project := rfl

@[simp] theorem coll_post (s : Store) : Store.coll s "post" = s.post := rfl

@[simp] theorem coll_contactmessage (s : Store) :
    Store.coll s "contactmessage" = s.contactmessage := rfl

@[simp] theorem insertDoc_project (s : Store) (d : Doc) :
    Store.insertDoc s "project" d = { s with project := s.project ++ [d] } := rfl

@[simp] theorem insertDoc_post (s : Store) (d : Doc) :
    Store.insertDoc s "post" d = { s with post := s.post ++ [d] } := rfl

@[simp] theorem insertDoc_contactmessage (s : Store) (d : Doc) :
    Store.insertDoc s "contactmessage" d =
      { s with contactmessage := s.contactmessage ++ [d] } := rfl

theorem create_document_project_store (d : Doc) (s : Store) :
    (create_document "project" d s).2 =
      { s with project := s.project ++ [d],
               nextId := s.nextId + 1,
               log := s.log ++ [Op.insert "project" d] } := rfl

theorem create_document_post_store (d : Doc) (s : Store) :
    (create_document "post" d s).2 =
      { s with post := s.post ++ [d],
               nextId := s.nextId + 1,
               log := s.log ++ [Op.insert "post" d] } := rfl

theorem create_document_contact_store (d : Doc) (s : Store) :
    (create_document "contactmessage" d s).2 =
      { s with contactmessage := s.contactmessage ++ [d],
               nextId := s.nextId + 1,
               log := s.log ++ [Op.insert "contactmessage" d] } := rfl

theorem foldSeedProjects (s : Store) :
    projectSeedDocs.foldl (fun st d => (create_document "project" d st).2) s =
      { s with project := s.project ++ projectSeedDocs,
               nextId := s.nextId + 3,
               log := s.log ++ projectSeedDocs.map (Op.insert "project") } := by
  simp only [projectSeedDocs, seedProjects, List.map_cons, List.map_nil,
    List.foldl_cons, List.foldl_nil, create_document_project_store]
  simp

theorem seedOf_project (now : Nat) (s : Store) :
    (seedOf now s).project =
      s.project ++ (if s.project.length = 0 then projectSeedDocs else []) := by
  by_cases hp : s.project.length = 0 <;> by_cases hq : s.post.length = 0 <;>
    simp [seedOf, count_documents, hp, hq, foldSeedProjects, create_document_post_store]

theorem seedOf_post (now : Nat) (s : Store) :
    (seedOf now s).post =
      s.post ++ (if s.post.length = 0 then [postSeedDoc now] else []) := by
  by_cases hp : s.project.length = 0 <;> by_cases hq : s.post.length = 0 <;>
    simp [seedOf, count_documents, hp, hq, foldSeedProjects, create_document_post_store]

theorem seedOf_contactmessage (now : Nat) (s : Store) :
    (seedOf now s).contactmessage = s.contactmessage := by
  by_cases hp : s.project.length = 0 <;> by_cases hq : s.post.length = 0 <;>
    simp [seedOf, count_documents, hp, hq, foldSeedProjects, create_document_post_store]

theorem seedOf_log (now : Nat) (s : Store) :
    (seedOf now s).log =
      s.log ++ ([Op.count "project"] ++
        (if s.project.length = 0 then projectSeedDocs.map (Op.insert "project") else []) ++
        [Op.count "post"] ++
        (if s.post.length = 0 then [Op.insert "post" (postSeedDoc now)] else [])) := by
  by_cases hp : s.project.length = 0 <;> by_cases hq : s.post.length = 0 <;>
    simp [seedOf, count_documents, hp, hq, foldSeedProjects, create_document_post_store]

theorem seedOf_project_length (now : Nat) (s : Store) :
    (seedOf now s).project.length ≠ 0 := by
  rw [seedOf_project]
  by_cases hp : s.project.length = 0 <;>
    simp [hp, projectSeedDocs, seedProjects, List.length_append]

theorem seedOf_post_length (now : Nat) (s : Store) :
    (seedOf now s).post.length ≠ 0 := by
  rw [seedOf_post]
  by_cases hq : s.post.length = 0 <;>
    simp [hq, List.length_append]

theorem assignId_ne_empty (n : Nat) : assignId n ≠ "" := by
  intro h
  have hlen : (assignId n).length = 0 := by rw [h]; rfl
  rw [assignId, String.length_append] at hlen
  have : ("oid" : String).length = 3 := rfl
  omega

theorem vList_beq_vStr (l : List String) (t : String) :
    (Value.vList l == Value.vStr t) = false := rfl

theorem matchesFilter_tags (d : Doc) (t : String) (hwf : tagsWellFormed d = true) :
    matchesFilter [("tags", Value.vStr t)] d = docTagsContain d t := by
  unfold tagsWellFormed at hwf
  unfold matchesFilter docTagsContain
  rcases hv : Doc.get d "tags" with _ | v
  · simp [hv]
  · rcases v with s | l | b | n | pr | _ <;> simp [hv] at hwf ⊢
    simp [valueMatches, vList_beq_vStr]

theorem seedDocs_tagsWellFormed :
    projectSeedDocs.all tagsWellFormed = true := by decide

theorem matchesFilter_nil (d : Doc) : matchesFilter [] d = true := rfl

/-- C8: for both listing endpoints, an empty tag query value is falsy in
the filter construction, so it behaves exactly like an omitted tag: the
filter is dropped and all records of the collection are returned. -/
theorem empty_tag_same_as_omitted (now : Nat) (db : Option Store) :
    list_projects (some "") now db = list_projects none now db ∧
    list_posts (some "") now db = list_posts none now db :=
  ⟨rfl, rfl⟩

/-- C9: when the store handle is None, ensure_seed_data returns normally
with the handle untouched — no count query and no insert is performed —
and each read handler then reaches its own store query, which fails with
the uninitialized-store infrastructure error rather than a seed-related
one. -/
theorem seed_noop_when_uninitialized (now : Nat) (tag : Option String) (sl : String) :
    ensure_seed_data now none = none ∧
    list_projects tag now none = Except.error "database not initialized" ∧
    get_project sl now none = Except.error "database not initialized" ∧
    list_posts tag now none = Except.error "database not initialized" ∧
    get_post sl now none = Except.error "database not initialized" :=
  ⟨rfl, rfl, rfl, rfl, rfl⟩

/-- C3: the project and post detail endpoints query by exact slug with
limit 1 and respond 404 with the non-empty messages "Project not found"
and "Post not found" exactly when that lookup yields no record. -/
theorem notfound_404_iff_no_match (sl : String) (now : Nat) (s : Store) :
    (Except.map Prod.fst (get_project sl now (some s)) =
        Except.ok (Resp.httpError 404 "Project not found") ↔
      (get_documents "project" [("slug", Value.vStr sl)] (some 1) (seedOf now s)).1 = []) ∧
    (Except.map Prod.fst (get_post sl now (some s)) =
        Except.ok (Resp.httpError 404 "Post not found") ↔
      (get_documents "post" [("slug", Value.vStr sl)] (some 1) (seedOf now s)).1 = []) ∧
    ("Project not found" : String) ≠ "" ∧ ("Post not found" : String) ≠ "" := by
  refine ⟨?_, ?_, by decide, by decide⟩
  · rcases hd : (get_documents "project" [("slug", Value.vStr sl)] (some 1) (seedOf now s)).1
      with _ | ⟨p, rest⟩ <;>
      simp [get_project, get_documents_db, ensure_seed_data, hd, Except.map]
  · rcases hd : (get_documents "post" [("slug", Value.vStr sl)] (some 1) (seedOf now s)).1
      with _ | ⟨p, rest⟩ <;>
      simp [get_post, get_documents_db, ensure_seed_data, hd, Except.map]

/-- C6: project normalization substitutes defaults for missing optional
fields — a record without featured yields featured false (and no error),
and records without tags or stack yield empty lists. -/
theorem normalization_defaults (d : Doc) (r : ProjectResponse)
    (h : normalizeProject d = some r) :
    (Doc.get d "featured" = none → r.featured = false) ∧
    (Doc.get d "tags" = none → r.tags = []) ∧
    (Doc.get d "stack" = none → r.stack = []) ∧
    normalizeProject minimalProjectDoc = some minimalProjectResponse := by
  unfold normalizeProject at h
  simp [Option.bind_eq_some] at h
  rcases h with ⟨t, ht, sl, hsl, ds, hds, tg, htg, st, hst, im, him, cu, hcu,
    gu, hgu, du, hdu, (⟨hft, rfl⟩ | ⟨hft, rfl⟩)⟩ <;>
    refine ⟨fun hmiss => ?_, fun hmiss => ?_, fun hmiss => ?_, rfl⟩
  · rfl
  · simp [Doc.getD, hmiss, asStrList] at htg
    simp [htg]
  · simp [Doc.getD, hmiss, asStrList] at hst
    simp [hst]
  · simp [Doc.getD, hmiss, asBool] at hft
  · simp [Doc.getD, hmiss, asStrList] at htg
    simp [htg]
  · simp [Doc.getD, hmiss, asStrList] at hst
    simp [hst]

/-- Witness for C6 at the document with only the required fields. -/
theorem normalization_defaults_witness :
    normalizeProject minimalProjectDoc = some minimalProjectResponse ∧
    ((Doc.get minimalProjectDoc "featured" = none →
        minimalProjectResponse.featured = false) ∧
     (Doc.get minimalProjectDoc "tags" = none → minimalProjectResponse.tags = []) ∧
     (Doc.get minimalProjectDoc "stack" = none → minimalProjectResponse.stack = []) ∧
     normalizeProject minimalProjectDoc = some minimalProjectResponse) :=
  ⟨rfl, normalization_defaults minimalProjectDoc minimalProjectResponse rfl⟩

/-- C7: the diagnostics handler is a total function of its environment —
every store failure is caught inside it — and its database field reports
the exact status string of each case, carrying a warning indicator in
every failure case (handle never initialized, or collection listing
raising). -/
theorem test_database_total_reports (env : TestEnv) :
    (test_database env).backend = "✅ Running" ∧
    (env.db = none →
      (test_database env).database = "⚠️ Available but not initialized") ∧
    (∀ d e, env.db = some d → d.list_collection_names = Except.error e →
      (test_database env).database = "⚠️ Connected but Error: " ++ e.take 80) ∧
    (∀ d cols, env.db = some d → d.list_collection_names = Except.ok cols →
      (test_database env).database = "✅ Connected & Working" ∧
      (test_database env).collections = cols.take 10) ∧
    ((env.db = none ∨ ∃ d e, env.db = some d ∧ d.list_collection_names = Except.error e) →
      ∃ rest, (test_database env).database = "⚠️" ++ rest) := by
  obtain ⟨odb, url⟩ := env
  cases odb with
  | none =>
    refine ⟨rfl, fun _ => rfl, ?_, ?_, ?_⟩
    · intro d e hd
      exact absurd hd (by simp)
    · intro d cols hd
      exact absurd hd (by simp)
    · intro _
      exact ⟨" Available but not initialized", rfl⟩
  | some dh =>
    obtain ⟨nm, lcn⟩ := dh
    cases lcn with
    | ok cols =>
      refine ⟨rfl, by simp, ?_, ?_, ?_⟩
      · intro d e hd he
        simp only [Option.some.injEq] at hd
        subst hd
        simp at he
      · intro d c hd hc
        simp only [Option.some.injEq] at hd
        subst hd
        simp only [Except.ok.injEq] at hc
        subst hc
        exact ⟨rfl, rfl⟩
      · intro hcase
        rcases hcase with hnone | ⟨d, e, hd, he⟩
        · simp at hnone
        · simp only [Option.some.injEq] at hd
          subst hd
          simp at he
    | error e0 =>
      refine ⟨rfl, by simp, ?_, ?_, ?_⟩
      · intro d e hd he
        simp only [Option.some.injEq] at hd
        subst hd
        simp only [Except.error.injEq] at he
        subst he
        rfl
      · intro d c hd hc
        simp only [Option.some.injEq] at hd
        subst hd
        simp at hc
      · intro _
        refine ⟨" Connected but Error: " ++ e0.take 80, ?_⟩
        rw [← String.append_assoc]
        rfl

/-- Witness for C7 with an uninitialized store handle. -/
theorem test_database_total_reports_witness :
    (({ db := none, database_url := none } : TestEnv)).db = none ∧
    (test_database { db := none, database_url := none }).database =
      "⚠️ Available but not initialized" :=
  ⟨rfl, (test_database_total_reports { db := none, database_url := none }).2.1 rfl⟩

/-- C4: a contact request that fails boundary validation (missing field or
syntactically invalid email) is rejected with the 422-class validation
error, and the store handle is returned unchanged — no insert happens. -/
theorem contact_validation_rejects (raw : RawContact) (db : Option Store)
    (h : parse_contact raw = none) :
    api_contact raw db = (ContactOutcome.validationError 422, db) := by
  simp [api_contact, h]

/-- Witness for C4 at a request with email "not-an-email". -/
theorem contact_validation_rejects_witness :
    parse_contact rawBad = none ∧
    api_contact rawBad (some emptyStore) =
      (ContactOutcome.validationError 422, some emptyStore) :=
  ⟨rfl, contact_validation_rejects rawBad (some emptyStore) rfl⟩

/-- C5: a contact request that passes validation inserts exactly the
constructed ContactMessage field map into the contactmessage collection
and returns status ok with the newly assigned, non-empty identifier. -/
theorem contact_valid_inserts (raw : RawContact) (p : ContactRequest) (s : Store)
    (h : parse_contact raw = some p) :
    api_contact raw (some s) =
      (ContactOutcome.ok "ok" (assignId s.nextId),
       some { s with
              contactmessage := s.contactmessage ++
                [ContactMessage.toDoc
                  { name := p.name, email := p.email, message := p.message }],
              nextId := s.nextId + 1,
              log := s.log ++ [Op.insert "contactmessage"
                (ContactMessage.toDoc
                  { name := p.name, email := p.email, message := p.message })] }) ∧
    assignId s.nextId ≠ "" := by
  refine ⟨?_, assignId_ne_empty s.nextId⟩
  simp [api_contact, h, submit_contact, create_document_contact_store, create_document]

/-- Witness for C5 at the Jane request on an empty store. -/
theorem contact_valid_inserts_witness :
    parse_contact rawJane = some janeReq ∧
    (api_contact rawJane (some emptyStore) =
      (ContactOutcome.ok "ok" (assignId emptyStore.nextId),
       some { emptyStore with
              contactmessage := emptyStore.contactmessage ++
                [ContactMessage.toDoc
                  { name := janeReq.name, email := janeReq.email,
                    message := janeReq.message }],
              nextId := emptyStore.nextId + 1,
              log := emptyStore.log ++ [Op.insert "contactmessage"
                (ContactMessage.toDoc
                  { name := janeReq.name, email := janeReq.email,
                    message := janeReq.message })] }) ∧
     assignId emptyStore.nextId ≠ "") :=
  ⟨rfl, contact_valid_inserts rawJane janeReq emptyStore rfl⟩

/-- C10: the contact endpoint never touches the project or post
collections and never runs the seed routine — the only store operation it
can perform is the single insert into contactmessage on the validated
path, and a rejected request performs no operation at all. -/
theorem contact_frame (raw : RawContact) (s : Store) :
    ∃ s2, (api_contact raw (some s)).2 = some s2 ∧
      s2.project = s.project ∧ s2.post = s.post ∧
      ((parse_contact raw = none ∧ s2.log.drop s.log.length = []) ∨
       (∃ p, parse_contact raw = some p ∧
          s2.log.drop s.log.length =
            [Op.insert "contactmessage"
              (ContactMessage.toDoc
                { name := p.name, email := p.email, message := p.message })])) := by
  rcases hp : parse_contact raw with _ | p
  · exact ⟨s, by simp [api_contact, hp], rfl, rfl,
      Or.inl ⟨rfl, List.drop_length s.log⟩⟩
  · refine ⟨{ s with
        contactmessage := s.contactmessage ++
          [ContactMessage.toDoc { name := p.name, email := p.email, message := p.message }],
        nextId := s.nextId + 1,
        log := s.log ++ [Op.insert "contactmessage"
          (ContactMessage.toDoc { name := p.name, email := p.email, message := p.message })] },
      ?_, rfl, rfl, Or.inr ⟨p, rfl, ?_⟩⟩
    · simp [api_contact, hp, submit_contact, create_document_contact_store, create_document]
    · exact List.drop_left s.log _

/-- C1: on an initialized store, the seed routine inserts exactly the
three hardcoded example projects when the project count is zero and
exactly the one example post when the post count is zero, performs no
insert into a nonempty collection, and a second invocation (counts now
nonzero) changes nothing and performs zero inserts. -/
theorem ensure_seed_exact_and_idempotent (now now2 : Nat) (s : Store) :
    ensure_seed_data now (some s) = some (seedOf now s) ∧
    (seedOf now s).project =
      s.project ++ (if s.project.length = 0 then projectSeedDocs else []) ∧
    (seedOf now s).post =
      s.post ++ (if s.post.length = 0 then [postSeedDoc now] else []) ∧
    ((seedOf now s).log.drop s.log.length).filter Op.isInsert =
      (if s.project.length = 0 then projectSeedDocs.map (Op.insert "project") else []) ++
      (if s.post.length = 0 then [Op.insert "post" (postSeedDoc now)] else []) ∧
    (seedOf now2 (seedOf now s)).project = (seedOf now s).project ∧
    (seedOf now2 (seedOf now s)).post = (seedOf now s).post ∧
    ((seedOf now2 (seedOf now s)).log.drop (seedOf now s).log.length).filter
      Op.isInsert = [] := by
  refine ⟨rfl, seedOf_project now s, seedOf_post now s, ?_, ?_, ?_, ?_⟩
  · rw [seedOf_log, List.drop_left]
    by_cases hp : s.project.length = 0 <;> by_cases hq : s.post.length = 0 <;>
      simp [hp, hq, List.filter_append, projectSeedDocs, seedProjects, Op.isInsert]
  · rw [seedOf_project now2 (seedOf now s)]
    simp [seedOf_project_length now s]
  · rw [seedOf_post now2 (seedOf now s)]
    simp [seedOf_post_length now s]
  · rw [seedOf_log now2 (seedOf now s), List.drop_left]
    simp [seedOf_project_length now s, seedOf_post_length now s,
      List.filter_append, Op.isInsert]

/-- Every document inserted by the project seeding has a well-formed tags
field. -/
theorem seedOf_tagsWellFormed (now : Nat) (s : Store)
    (h : ∀ d ∈ s.project, tagsWellFormed d = true) :
    ∀ d ∈ (seedOf now s).project, tagsWellFormed d = true := by
  intro d hd
  rw [seedOf_project] at hd
  rcases List.mem_append.mp hd with h1 | h2
  · exact h d h1
  · by_cases hp : s.project.length = 0
    · rw [if_pos hp] at h2
      have hall := seedDocs_tagsWellFormed
      rw [List.all_eq_true] at hall
      exact hall d h2
    · rw [if_neg hp] at h2
      exact absurd h2 (List.not_mem_nil d)

/-- C2 counterexample: with the empty string as tag value the filter is
dropped, so the endpoint returns a stored record whose tag list does not
contain the empty string — the claim fails for that tag value. -/
theorem list_projects_empty_tag_counterexample :
    Except.map Prod.fst (list_projects (some "") 0 (some cstore)) ≠
      Except.ok (((seedOf 0 cstore).project.filter
        (fun d => docTagsContain d "")).map normalizeProject) := by
  have h1 : Except.map Prod.fst (list_projects (some "") 0 (some cstore)) =
      Except.ok [normalizeProject cdoc] := rfl
  have h2 : (((seedOf 0 cstore).project.filter
      (fun d => docTagsContain d "")).map normalizeProject) = [] := rfl
  rw [h1, h2]
  simp

/-- C2 (amended): for every nonempty tag string, the listing endpoint
returns exactly the normalized stored project records whose tag list
contains that string as an exact, case-sensitive member; omitting the tag
returns all records. -/
theorem list_projects_exact_tag (t : String) (now : Nat) (s : Store)
    (ht : t ≠ "") (hwf : ∀ d ∈ s.project, tagsWellFormed d = true) :
    Except.map Prod.fst (list_projects (some t) now (some s)) =
      Except.ok (((seedOf now s).project.filter
        (fun d => docTagsContain d t)).map normalizeProject) ∧
    Except.map Prod.fst (list_projects none now (some s)) =
      Except.ok ((seedOf now s).project.map normalizeProject) := by
  constructor
  · have hfc : (seedOf now s).project.filter (matchesFilter [("tags", Value.vStr t)]) =
        (seedOf now s).project.filter (fun d => docTagsContain d t) :=
      List.filter_congr
        (fun d hd => matchesFilter_tags d t (seedOf_tagsWellFormed now s hwf d hd))
    simp [list_projects, get_documents_db, ensure_seed_data, get_documents,
      tagFilter, ht, Except.map, hfc]
  · have hfn : matchesFilter [] = fun _ => true := funext fun d => rfl
    simp [list_projects, get_documents_db, ensure_seed_data, get_documents,
      tagFilter, Except.map, hfn, List.filter_true]

/-- Witness for C2 (amended) at tag "AI" on the empty store. -/
theorem list_projects_exact_tag_witness :
    (("AI" : String) ≠ "" ∧ ∀ d ∈ emptyStore.project, tagsWellFormed d = true) ∧
    (Except.map Prod.fst (list_projects (some "AI") 0 (some emptyStore)) =
       Except.ok (((seedOf 0 emptyStore).project.filter
         (fun d => docTagsContain d "AI")).map normalizeProject) ∧
     Except.map Prod.fst (list_projects none 0 (some emptyStore)) =
       Except.ok ((seedOf 0 emptyStore).project.map normalizeProject)) :=
  ⟨⟨by decide, by simp [emptyStore]⟩,
   list_projects_exact_tag "AI" 0 emptyStore (by decide) (by simp [emptyStore])⟩
